import Mathlib

/-!
Verification of `cha-insecuredefaultconfigreporter` (src/main.py).

The program is a single-file Python tool:
  * `load_config_file(config_file, file_type)` — existence check, open,
    extension-based type detection, then YAML/JSON parse;
  * `load_schema_file(schema_file)` — existence check, open, JSON parse;
  * `validate_config(config_data, schema_data)` — delegates to the external
    `jsonschema.validate`, re-raising `ValidationError` and wrapping anything
    else in a generic `Exception`;
  * `main()` — sequences the stages and runs two hard-coded insecure-default
    checks (`password == "password"`, `admin_password == "admin"`) joined by
    `if`/`elif`.

We embed the parsed-value data model, the Python-level control flow of each
function (including which exception class escapes each branch), an event trace
recording which effects (existence check, open, parse, validate, scan) each
run performs, and a faithful model of the fragment of the external
`jsonschema` library the program exercises (`check_schema` over the `type` /
`required` / `properties` / `items` keywords, `iter_errors` over the `type` /
`required` / `properties` keywords, and `best_match`, which raises a single
error).  External file I/O and text parsing are abstracted as a `FileState`
record carrying the outcome each parser would produce for the file's bytes.
-/

namespace Reporter

/-- Parsed YAML/JSON document value (the dict/list/scalar tree that
`yaml.safe_load` / `json.load` return).  Numbers are modelled as integers:
every document and schema in scope uses only integer numerics.  Object key
order is the source-text order; keys are unique (Python dict). -/
inductive Value where
  | null : Value
  | bool (b : Bool) : Value
  | num (n : Int) : Value
  | str (s : String) : Value
  | arr (xs : List Value) : Value
  | obj (kvs : List (String × Value)) : Value

/-- A single `jsonschema.ValidationError`, identified by the instance path it
is attached to and, for `required`, the key named in its message. -/
inductive VErr where
  | typeMismatch (path : List String) : VErr
  | missingRequired (path : List String) (key : String) : VErr
deriving DecidableEq, Repr

/-- Python exception classes that can escape the program's functions.
`unexpectedError` is the generic `Exception(...)` re-raised by the blanket
`except Exception` handlers in `load_config_file` and `validate_config`. -/
inductive PyErr where
  | fileNotFound : PyErr
  | valueError : PyErr
  | yamlError : PyErr
  | jsonDecodeError : PyErr
  | validationError (e : VErr) : PyErr
  | unexpectedError : PyErr
deriving DecidableEq, Repr

/-- Observable effects of one run, in order: per-file existence check, file
open, text parse, plus the validation stage and the insecure-default scan. -/
inductive Event where
  | cfgExistsCheck | cfgOpen | cfgParse
  | schExistsCheck | schOpen | schParse
  | validateRun | scanRun
deriving DecidableEq, Repr

/-- The two findings the hard-coded rule branches can report (the warnings at
lines 143 and 145 of src/main.py). -/
inductive Finding where
  | insecurePassword : Finding
  | insecureAdminPassword : Finding
deriving DecidableEq, Repr

/-- Log lines main emits that matter to the report: the validation-status
lines and the scan outcome lines. -/
inductive LogLine where
  | configValid | skippingValidation
  | warnPassword | warnAdminPassword | noDefaultFound
deriving DecidableEq, Repr

/-- Abstraction of a file on disk as the program observes it: whether
`os.path.exists` succeeds, and what `yaml.safe_load` resp. `json.load` would
produce from its bytes (`Except.error` = the parser raises). -/
structure FileState where
  present : Bool
  yamlParse : Except Unit Value
  jsonParse : Except Unit Value

/-- First value stored under key `k` (Python dict lookup; keys are unique in
parsed objects, so "first" is "the" binding). -/
def firstVal (kvs : List (String × Value)) (k : String) : Option Value :=
  (kvs.find? (fun p => p.1 == k)).map (fun p => p.2)

/-- Python `k in obj` for a parsed object: key membership. -/
def hasKey (kvs : List (String × Value)) (k : String) : Bool :=
  kvs.any (fun p => p.1 == k)

/-- Python `v == s` where `s` is a string literal: true exactly for the equal
string value, false (never an error) for every other value shape. -/
def Value.eqString : Value → String → Bool
  | Value.str t, s => t == s
  | _, _ => false

/-- `matchAt needle hay`: `needle` occurs at the head of `hay`. -/
def matchAt : List Char → List Char → Bool
  | [], _ => true
  | _ :: _, [] => false
  | a :: as, b :: bs => a == b && matchAt as bs

/-- Python substring test `needle in hay` for strings. -/
def containsSub (needle : List Char) : List Char → Bool
  | [] => matchAt needle []
  | c :: rest => matchAt needle (c :: rest) || containsSub needle rest

/-- Python `needle in hay` on strings (substring containment). -/
def strIn (needle hay : String) : Bool :=
  containsSub needle.data hay.data

/-- `suffixAt suf l`: `suf` equals the last `suf.length` characters of `l`
(false when `l` is shorter). -/
def suffixAt (suf l : List Char) : Bool :=
  matchAt suf (l.drop (l.length - suf.length))

/-- Python `s.endswith(suffix)` (and `str.endswith` as used at src/main.py
lines 47–49). -/
def strEndsWith (s suffix : String) : Bool :=
  suffixAt suffix.data s.data

/-!
## `load_config_file` and `load_schema_file` (src/main.py lines 23–91)

`load_config_file` checks `os.path.exists` first (raising `FileNotFoundError`
outside the `try` block, so it is never wrapped), then *opens* the file, then
— inside the `with open(...)` block — auto-detects the type from the filename
suffix when no explicit `file_type` was passed.  The `ValueError` raised for
an undeterminable or unsupported type is caught by the function's own blanket
`except Exception` clause and re-raised as a generic `Exception`, so the
error class that escapes is `unexpectedError`, not `valueError`.  YAML and
JSON parse failures are re-raised under their own classes.
-/

/-- Embedding of `load_config_file(config_file, file_type)`: returns the
event trace (existence check / open / parse) together with the outcome. -/
def load_config_file (config_file : String) (file_type : Option String)
    (fs : FileState) : List Event × Except PyErr Value :=
  if !fs.present then
    ([Event.cfgExistsCheck], Except.error PyErr.fileNotFound)
  else
    -- the file is opened before the type is resolved
    let ft : Option String :=
      match file_type with
      | some t => some t
      | none =>
        if strEndsWith config_file ".yaml" || strEndsWith config_file ".yml" then some "yaml"
        else if strEndsWith config_file ".json" then some "json"
        else none
    match ft with
    | none =>
      -- `raise ValueError("Could not determine the file type...")`, caught by
      -- `except Exception` and re-raised as a generic Exception
      ([Event.cfgExistsCheck, Event.cfgOpen], Except.error PyErr.unexpectedError)
    | some t =>
      if t == "yaml" then
        match fs.yamlParse with
        | Except.ok v =>
          ([Event.cfgExistsCheck, Event.cfgOpen, Event.cfgParse], Except.ok v)
        | Except.error _ =>
          ([Event.cfgExistsCheck, Event.cfgOpen, Event.cfgParse],
           Except.error PyErr.yamlError)
      else if t == "json" then
        match fs.jsonParse with
        | Except.ok v =>
          ([Event.cfgExistsCheck, Event.cfgOpen, Event.cfgParse], Except.ok v)
        | Except.error _ =>
          ([Event.cfgExistsCheck, Event.cfgOpen, Event.cfgParse],
           Except.error PyErr.jsonDecodeError)
      else
        -- `raise ValueError("Unsupported configuration file type...")`, also
        -- swallowed by the blanket handler
        ([Event.cfgExistsCheck, Event.cfgOpen], Except.error PyErr.unexpectedError)

/-- Embedding of `load_schema_file(schema_file)`: existence check first
(raised outside the `try`), then open and JSON parse.  The schema's content
is *not* inspected here: whatever `json.load` yields is returned as-is. -/
def load_schema_file (fs : FileState) : List Event × Except PyErr Value :=
  if !fs.present then
    ([Event.schExistsCheck], Except.error PyErr.fileNotFound)
  else
    match fs.jsonParse with
    | Except.ok v =>
      ([Event.schExistsCheck, Event.schOpen, Event.schParse], Except.ok v)
    | Except.error _ =>
      ([Event.schExistsCheck, Event.schOpen, Event.schParse],
       Except.error PyErr.jsonDecodeError)

/-!
## Model of the external `jsonschema` library, for the fragment exercised

`jsonschema.validate(instance, schema)` does, in order:
  1. `cls.check_schema(schema)` — validates the schema against the
     meta-schema, raising `SchemaError` if it is invalid; in particular a
     `type` keyword whose value is not one of the seven primitive type names
     (or an array of them) is rejected here;
  2. `error = best_match(validator.iter_errors(instance))`; `iter_errors`
     yields one `ValidationError` per violated keyword check, iterating the
     schema's keywords in dict order; `best_match` selects a single error
     (maximising the relevance tuple, whose leading component prefers the
     shallowest instance path, ties resolved to the first error yielded);
  3. raises that single error if any.
We model the keywords the program's schemas can exercise: `type`, `required`,
`properties` (recursing into present keys), with unknown keywords ignored —
exactly jsonschema's behaviour on this fragment.  `enum`/`items` instance
checks are not exercised by any claim; the meta-schema check still recurses
into `properties`/`items` sub-schemas as jsonschema's does.
-/

/-- The seven primitive type names the meta-schema's `type` enum admits. -/
def typeNames : List String :=
  ["array", "boolean", "integer", "null", "number", "object", "string"]

/-- Meta-schema check of a `type` keyword value: a recognized name, or a
non-empty array of recognized names. -/
def typeValueOk : Value → Bool
  | Value.str s => typeNames.contains s
  | Value.arr ts =>
    !ts.isEmpty &&
      ts.all (fun t => match t with | Value.str s => typeNames.contains s | _ => false)
  | _ => false

/-- Meta-schema check of a `required` keyword value: an array of strings. -/
def requiredValueOk : Value → Bool
  | Value.arr ks => ks.all (fun k => match k with | Value.str _ => true | _ => false)
  | _ => false

mutual

/-- Model of `cls.check_schema` restricted to the keywords above: a schema is
a boolean or an object whose `type` / `required` values are well-formed and
whose `properties` / `items` values are again schemas; unknown keywords are
unconstrained. -/
def check_schema : Value → Bool
  | Value.bool _ => true
  | Value.obj kvs => checkEntries kvs
  | _ => false

/-- Meta-schema check of a schema object's keyword list. -/
def checkEntries : List (String × Value) → Bool
  | [] => true
  | (k, v) :: rest => checkEntry k v && checkEntries rest

/-- Meta-schema check of one keyword binding. -/
def checkEntry (k : String) (v : Value) : Bool :=
  if k == "type" then typeValueOk v
  else if k == "required" then requiredValueOk v
  else if k == "properties" then
    match v with
    | Value.obj ps => checkSchemas ps
    | _ => false
  else if k == "items" then check_schema v
  else true

/-- Meta-schema check of the sub-schemas of a `properties` object. -/
def checkSchemas : List (String × Value) → Bool
  | [] => true
  | (_, s) :: rest => check_schema s && checkSchemas rest

end

/-- jsonschema's runtime type test `is_type(instance, t)`: exact per kind;
integers are numbers; booleans are not numbers (jsonschema special-cases
Python's `bool <: int`). -/
def typeOk : Value → String → Bool
  | Value.null, t => t == "null"
  | Value.bool _, t => t == "boolean"
  | Value.num _, t => t == "number" || t == "integer"
  | Value.str _, t => t == "string"
  | Value.arr _, t => t == "array"
  | Value.obj _, t => t == "object"

/-- Errors yielded by the `type` keyword check. -/
def typeErrors (kv inst : Value) (path : List String) : List VErr :=
  match kv with
  | Value.str t => if typeOk inst t then [] else [VErr.typeMismatch path]
  | Value.arr ts =>
    if ts.any (fun t => match t with | Value.str s => typeOk inst s | _ => false)
    then [] else [VErr.typeMismatch path]
  | _ => []

/-- Errors yielded by the `required` keyword check: one error per required
key absent from the instance object, in the order the schema lists them. -/
def requiredErrors (ks : List Value) (fields : List (String × Value))
    (path : List String) : List VErr :=
  match ks with
  | [] => []
  | Value.str s :: rest =>
    (if hasKey fields s then [] else [VErr.missingRequired path s])
      ++ requiredErrors rest fields path
  | _ :: rest => requiredErrors rest fields path

mutual

/-- Model of `Validator.iter_errors(instance)` for the fragment: iterate the
schema object's keywords in order, concatenating each keyword's errors. -/
def iter_errors (schema inst : Value) (path : List String) : List VErr :=
  match schema with
  | Value.obj kvs => iterKeywords kvs inst path
  | _ => []

/-- Keyword-by-keyword error collection over a schema object's bindings. -/
def iterKeywords (kvs : List (String × Value)) (inst : Value)
    (path : List String) : List VErr :=
  match kvs with
  | [] => []
  | (k, v) :: rest => keywordErrors k v inst path ++ iterKeywords rest inst path

/-- Errors of a single keyword check; `required` and `properties` apply only
to object instances, and unknown keywords yield nothing. -/
def keywordErrors (k : String) (kv inst : Value) (path : List String) : List VErr :=
  if k == "type" then typeErrors kv inst path
  else if k == "required" then
    match kv, inst with
    | Value.arr ks, Value.obj fields => requiredErrors ks fields path
    | _, _ => []
  else if k == "properties" then
    match kv, inst with
    | Value.obj props, Value.obj fields => propErrors props fields path
    | _, _ => []
  else []

/-- The `properties` keyword: for each listed property present in the
instance, descend with the sub-schema, extending the path by the key. -/
def propErrors (props fields : List (String × Value)) (path : List String) :
    List VErr :=
  match props with
  | [] => []
  | (p, sub) :: rest =>
    (match firstVal fields p with
     | some v => iter_errors sub v (path ++ [p])
     | none => []) ++ propErrors rest fields path

end

/-- Instance-path length of an error (the leading relevance component). -/
def VErr.pathLen : VErr → Nat
  | VErr.typeMismatch p => p.length
  | VErr.missingRequired p _ => p.length

/-- Model of `jsonschema.exceptions.best_match`: Python `max` by the
relevance key over the yielded errors.  On this fragment no error comes from
a weak (`anyOf`/`oneOf`) keyword and the schema-path length is determined by
the instance-path length, so relevance reduces to "shallowest instance path
wins, first yielded wins ties" — `max` replaces only on strict improvement. -/
def best_match (es : List VErr) : Option VErr :=
  match es with
  | [] => none
  | e :: rest =>
    some (rest.foldl (fun b x => if x.pathLen < b.pathLen then x else b) e)

/-- Embedding of `validate_config(config_data, schema_data)`:
`jsonschema.validate` checks the schema (a `SchemaError` falls to the
blanket `except Exception`, escaping as a generic Exception), then raises
the single best-match `ValidationError` if the instance is invalid. -/
def validate_config (config_data schema_data : Value) : Except PyErr Unit :=
  if check_schema schema_data then
    match best_match (iter_errors schema_data config_data []) with
    | some e => Except.error (PyErr.validationError e)
    | none => Except.ok ()
  else Except.error PyErr.unexpectedError

/-!
## The insecure-default checks (src/main.py lines 142–147)

```python
if 'password' in config_data and config_data['password'] == 'password':
    logging.warning("Insecure default password detected. ...")
elif 'admin_password' in config_data and config_data['admin_password'] == 'admin':
    logging.warning("Insecure default admin password detected. ...")
else:
    logging.info("No default password found")
```
The two checks are joined by `elif`, so at most one fires.  Python's `in`
depends on the runtime type of `config_data`: key membership for a dict,
element equality for a list, substring for a string, and a `TypeError` for
`None` / numbers / booleans; indexing with a string raises `TypeError` on
anything but a dict.  These `TypeError`s escape to main's blanket
`except Exception` handler.
-/

/-- Python `k in v` for an arbitrary parsed value (`Except.error` models the
`TypeError` raised when `v` does not support membership tests). -/
def keyTest (v : Value) (k : String) : Except Unit Bool :=
  match v with
  | Value.obj kvs => Except.ok (hasKey kvs k)
  | Value.arr xs => Except.ok (xs.any (fun x => x.eqString k))
  | Value.str s => Except.ok (strIn k s)
  | _ => Except.error ()

/-- Python `v[k]` with a string index: dict lookup; `TypeError` on lists,
strings and scalars (`KeyError` cannot occur after a successful `in`). -/
def getItem (v : Value) (k : String) : Except Unit Value :=
  match v with
  | Value.obj kvs =>
    match firstVal kvs k with
    | some x => Except.ok x
    | none => Except.error ()
  | _ => Except.error ()

/-- The `elif` branch of the scan: the admin_password check, reached only
when the password branch did not fire. -/
def scanAdmin (c : Value) : Except Unit (List Finding) :=
  match keyTest c "admin_password" with
  | Except.error _ => Except.error ()
  | Except.ok false => Except.ok []
  | Except.ok true =>
    match getItem c "admin_password" with
    | Except.error _ => Except.error ()
    | Except.ok v =>
      if v.eqString "admin" then Except.ok [Finding.insecureAdminPassword]
      else Except.ok []

/-- Embedding of the insecure-default checks: findings reported by the
`if`/`elif`/`else` at lines 142–147, or the `TypeError` they can raise. -/
def scan (c : Value) : Except Unit (List Finding) :=
  match keyTest c "password" with
  | Except.error _ => Except.error ()
  | Except.ok false => scanAdmin c
  | Except.ok true =>
    match getItem c "password" with
    | Except.error _ => Except.error ()
    | Except.ok v =>
      if v.eqString "password" then Except.ok [Finding.insecurePassword]
      else scanAdmin c

/-!
## `main` (src/main.py lines 114–167)

`main` sequences: load the config file; if `--schema_file` was given, load
the schema and validate (a failure exits before anything else runs);
otherwise log "Skipping validation"; then run the insecure-default checks.
Every raised exception is caught by one of the `except` clauses at lines
150–167 and turns into `sys.exit(1)`; a completed run exits 0.  The report
record below is the structured content of the run's log output: whether
validation ran and passed (`validated`), the violations reported (always
empty on a completed run — a validation failure exits instead), the scan's
findings, and the status log lines in order.
-/

/-- Command-line arguments after `argparse` (src/main.py lines 12–21):
positional `config_file`, optional `--schema_file`, optional `--type`
(`ftype` here; argparse restricts it to `yaml`/`json` when present). -/
structure Args where
  config_file : String
  schema_file : Option String
  ftype : Option String

/-- Result of a completed (exit-0) run, read off the log output. -/
structure Report where
  validated : Bool
  violations : List VErr
  findings : List Finding
  logs : List LogLine
deriving Repr

/-- The log line(s) the scan's `if`/`elif`/`else` emits for its findings. -/
def findingLogs : List Finding → List LogLine
  | [] => [LogLine.noDefaultFound]
  | fs =>
    fs.map (fun f =>
      match f with
      | Finding.insecurePassword => LogLine.warnPassword
      | Finding.insecureAdminPassword => LogLine.warnAdminPassword)

/-- Embedding of `main()` after argument parsing: the event trace of the run
and either the completed run's report (exit 0) or the exception class that
reached an `except` clause (exit 1). -/
def main (args : Args) (cfg sch : FileState) : List Event × Except PyErr Report :=
  let t1r := load_config_file args.config_file args.ftype cfg
  match t1r.2 with
  | Except.error e => (t1r.1, Except.error e)
  | Except.ok config_data =>
    match args.schema_file with
    | some _ =>
      let t2r := load_schema_file sch
      match t2r.2 with
      | Except.error e => (t1r.1 ++ t2r.1, Except.error e)
      | Except.ok schema_data =>
        match validate_config config_data schema_data with
        | Except.error e =>
          (t1r.1 ++ t2r.1 ++ [Event.validateRun], Except.error e)
        | Except.ok _ =>
          match scan config_data with
          | Except.error _ =>
            -- the scan's TypeError reaches `except Exception` (line 165)
            (t1r.1 ++ t2r.1 ++ [Event.validateRun, Event.scanRun],
             Except.error PyErr.unexpectedError)
          | Except.ok fs =>
            (t1r.1 ++ t2r.1 ++ [Event.validateRun, Event.scanRun],
             Except.ok { validated := true, violations := [], findings := fs,
                         logs := LogLine.configValid :: findingLogs fs })
    | none =>
      match scan config_data with
      | Except.error _ =>
        (t1r.1 ++ [Event.scanRun], Except.error PyErr.unexpectedError)
      | Except.ok fs =>
        (t1r.1 ++ [Event.scanRun],
         Except.ok { validated := false, violations := [], findings := fs,
                     logs := LogLine.skippingValidation :: findingLogs fs })

/-!
## Observation helpers used in the statements
-/

/-- The schema violations an invocation of `validate_config` reports to its
caller: the single raised `ValidationError`, or nothing. -/
def reportedViolations : Except PyErr Unit → List VErr
  | Except.error (PyErr.validationError e) => [e]
  | _ => []

/-- `true` when the document's top-level object binds key `k` (first, i.e.
unique, binding) to exactly the string `val` — the condition under which one
of the two hard-coded rule branches fires. -/
def topMatches (kvs : List (String × Value)) (k val : String) : Bool :=
  match firstVal kvs k with
  | some v => v.eqString val
  | none => false

/-- Whether a stage outcome is a raised exception. -/
def exceptFailed {α : Type} : Except PyErr α → Bool
  | Except.error _ => true
  | Except.ok _ => false

/-- The schema `{"type": "object", "required": ["host", "port"]}` from the
spec's own test-case list (§8). -/
def hostPortSchema : Value :=
  Value.obj [("type", Value.str "object"),
             ("required", Value.arr [Value.str "host", Value.str "port"])]

/-!
## Helper lemmas
-/

lemma hasKey_eq_isSome (kvs : List (String × Value)) (k : String) :
    hasKey kvs k = (firstVal kvs k).isSome := by
  induction kvs with
  | nil => rfl
  | cons p rest ih =>
    simp only [hasKey, firstVal, List.any_cons, List.find?_cons] at *
    by_cases h : (p.1 == k) = true
    · simp [h]
    · simp only [Bool.not_eq_true] at h
      simp [h, ih]

lemma allStrMap (ks : List String) :
    (ks.map Value.str).all (fun k => match k with | Value.str _ => true | _ => false) = true := by
  induction ks with
  | nil => rfl
  | cons a rest ih => simp [List.all_cons, ih]

lemma requiredErrors_skip (as : List String) (rest : List Value)
    (fields : List (String × Value)) (p : List String)
    (h : ∀ a ∈ as, hasKey fields a = true) :
    requiredErrors (as.map Value.str ++ rest) fields p = requiredErrors rest fields p := by
  induction as with
  | nil => rfl
  | cons a tl ih =>
    simp only [List.map_cons, List.cons_append, requiredErrors]
    rw [if_pos (h a (by simp)), List.nil_append]
    exact ih (fun x hx => h x (by simp [hx]))

lemma requiredErrors_head (k : String) (rest : List Value)
    (fields : List (String × Value)) (p : List String)
    (h : hasKey fields k = false) :
    requiredErrors (Value.str k :: rest) fields p
      = VErr.missingRequired p k :: requiredErrors rest fields p := by
  simp only [requiredErrors]
  rw [if_neg (by simp [h]), List.singleton_append]

lemma iter_errors_flat (ks : List Value) (fields : List (String × Value)) :
    iter_errors
      (Value.obj [("type", Value.str "object"), ("required", Value.arr ks)])
      (Value.obj fields) []
      = requiredErrors ks fields [] := by
  simp [iter_errors, iterKeywords, keywordErrors, typeErrors, typeOk]

lemma check_schema_flat (ks : List String) :
    check_schema
      (Value.obj [("type", Value.str "object"), ("required", Value.arr (ks.map Value.str))])
      = true := by
  simp [check_schema, checkEntries, checkEntry, typeValueOk, requiredValueOk, typeNames,
    allStrMap]

lemma foldl_keep (e : VErr) (rest : List VErr)
    (h : ∀ x ∈ rest, e.pathLen ≤ x.pathLen) :
    rest.foldl (fun b x => if x.pathLen < b.pathLen then x else b) e = e := by
  induction rest with
  | nil => rfl
  | cons x xs ih =>
    simp only [List.foldl_cons]
    rw [if_neg (Nat.not_lt.mpr (h x (by simp)))]
    exact ih (fun y hy => h y (by simp [hy]))

lemma best_match_cons (e : VErr) (rest : List VErr)
    (h : ∀ x ∈ rest, e.pathLen ≤ x.pathLen) :
    best_match (e :: rest) = some e := by
  simp only [best_match]
  rw [foldl_keep e rest h]

lemma load_cfg_trace (p : String) (ft : Option String) (fs : FileState) :
    (load_config_file p ft fs).1 = [Event.cfgExistsCheck]
    ∨ (load_config_file p ft fs).1 = [Event.cfgExistsCheck, Event.cfgOpen]
    ∨ (load_config_file p ft fs).1 = [Event.cfgExistsCheck, Event.cfgOpen, Event.cfgParse] := by
  unfold load_config_file
  dsimp only
  repeat' split
  all_goals first
    | exact Or.inl rfl
    | exact Or.inr (Or.inl rfl)
    | exact Or.inr (Or.inr rfl)

lemma load_sch_trace (fs : FileState) :
    (load_schema_file fs).1 = [Event.schExistsCheck]
    ∨ (load_schema_file fs).1 = [Event.schExistsCheck, Event.schOpen, Event.schParse] := by
  unfold load_schema_file
  repeat' split
  all_goals first
    | exact Or.inr rfl
    | exact Or.inl rfl

/-!
## Claims
-/

/-- C1 counterexample: validation does not accumulate violations.  For the
document `{}` against `{"type": "object", "required": ["host", "port"]}` —
a document missing the required key `"port"` — the violations the program
reports contain no `MissingRequired` entry for `"port"` at all: only the
single best-match error (for `"host"`) is raised. -/
theorem C1_counterexample :
    reportedViolations (validate_config (Value.obj []) hostPortSchema)
      = [VErr.missingRequired [] "host"]
    ∧ VErr.missingRequired [] "port" ∉
        reportedViolations (validate_config (Value.obj []) hostPortSchema)
    ∧ hasKey ([] : List (String × Value)) "port" = false := by
  have hcs : check_schema hostPortSchema = true := by
    simp [hostPortSchema, check_schema, checkEntries, checkEntry, typeValueOk,
      requiredValueOk, typeNames]
  have hie : iter_errors hostPortSchema (Value.obj []) []
      = [VErr.missingRequired [] "host", VErr.missingRequired [] "port"] := by
    simp [hostPortSchema, iter_errors, iterKeywords, keywordErrors, typeErrors, typeOk,
      requiredErrors, hasKey]
  have hv : validate_config (Value.obj []) hostPortSchema
      = Except.error (PyErr.validationError (VErr.missingRequired [] "host")) := by
    simp only [validate_config, hcs, if_true, hie]
    rfl
  rw [hv]
  exact ⟨rfl, by decide, rfl⟩

/-- C1 (amended): `validate_config` stops at the first violation instead of
accumulating.  For an object document and a flat object schema with required
keys `ks`, if `k` is the first required key missing from the document, the
call raises exactly one `ValidationError`, the `MissingRequired` for `k`;
no other independent violation is reported. -/
theorem C1_first_missing_only (ks : List String) (fields : List (String × Value))
    (as : List String) (k : String) (bs : List String)
    (hks : ks = as ++ k :: bs)
    (hpresent : ∀ a ∈ as, hasKey fields a = true)
    (habsent : hasKey fields k = false) :
    validate_config (Value.obj fields)
      (Value.obj [("type", Value.str "object"),
                  ("required", Value.arr (ks.map Value.str))])
      = Except.error (PyErr.validationError (VErr.missingRequired [] k)) := by
  subst hks
  have hreq : requiredErrors ((as ++ k :: bs).map Value.str) fields []
      = VErr.missingRequired [] k :: requiredErrors (bs.map Value.str) fields [] := by
    rw [List.map_append, requiredErrors_skip as _ fields [] hpresent, List.map_cons,
      requiredErrors_head k _ fields [] habsent]
  have hbm := best_match_cons (VErr.missingRequired [] k)
    (requiredErrors (bs.map Value.str) fields [])
    (fun x _ => by simp [VErr.pathLen])
  simp only [validate_config, check_schema_flat, if_true, iter_errors_flat, hreq, hbm]

/-- C1 witness: spec §8's own example — schema requiring `host` and `port`,
document `{"host": "x"}` — reports the single missing-required error for
`port`. -/
theorem C1_first_missing_only_witness :
    validate_config (Value.obj [("host", Value.str "x")])
      (Value.obj [("type", Value.str "object"),
                  ("required", Value.arr [Value.str "host", Value.str "port"])])
      = Except.error (PyErr.validationError (VErr.missingRequired [] "port")) :=
  C1_first_missing_only ["host", "port"] [("host", Value.str "x")] ["host"] "port" []
    rfl (by decide) (by decide)

/-- C2 counterexample: on the document holding both insecure defaults at
once, the scan emits exactly one finding (the password one), not the two
findings the claim demands. -/
theorem C2_counterexample :
    scan (Value.obj [("password", Value.str "password"), ("admin_password", Value.str "admin")])
      = Except.ok [Finding.insecurePassword]
    ∧ scan (Value.obj [("password", Value.str "password"), ("admin_password", Value.str "admin")])
      ≠ Except.ok [Finding.insecurePassword, Finding.insecureAdminPassword] := by
  refine ⟨rfl, fun h => ?_⟩
  have h2 : (Except.ok [Finding.insecurePassword] : Except Unit (List Finding))
      = Except.ok [Finding.insecurePassword, Finding.insecureAdminPassword] := h
  simp at h2

/-- C2 (amended): the two rule branches are joined by `elif`, so they
short-circuit: whenever the top-level object binds `password` to
`"password"`, the scan reports only the password finding — even when
`admin_password` is simultaneously bound to `"admin"`. -/
theorem C2_elif_single_finding (kvs : List (String × Value))
    (hp : topMatches kvs "password" "password" = true)
    (ha : topMatches kvs "admin_password" "admin" = true) :
    scan (Value.obj kvs) = Except.ok [Finding.insecurePassword] := by
  cases hfv : firstVal kvs "password" with
  | none =>
    simp only [topMatches, hfv] at hp
    exact Bool.noConfusion hp
  | some v =>
    have hk : hasKey kvs "password" = true := by
      rw [hasKey_eq_isSome, hfv]; rfl
    have hv : v.eqString "password" = true := by
      simp only [topMatches, hfv] at hp; exact hp
    simp [scan, keyTest, hk, getItem, hfv, hv]

/-- C2 witness: both insecure defaults present, one finding emitted. -/
theorem C2_elif_single_finding_witness :
    scan (Value.obj [("password", Value.str "password"), ("admin_password", Value.str "admin")])
      = Except.ok [Finding.insecurePassword] :=
  C2_elif_single_finding
    [("password", Value.str "password"), ("admin_password", Value.str "admin")]
    (by decide) (by decide)

/-- C3 (confirmed): `{"password": "password"}` yields exactly the password
finding, `{"password": "S3cure!"}` yields none, and in general the branch
fires exactly when the value is the exact string `"password"`. -/
theorem C3_exact_value_match (s : String) :
    scan (Value.obj [("password", Value.str "password")]) = Except.ok [Finding.insecurePassword]
    ∧ scan (Value.obj [("password", Value.str "S3cure!")]) = Except.ok []
    ∧ scan (Value.obj [("password", Value.str s)])
        = Except.ok (if s = "password" then [Finding.insecurePassword] else []) := by
  refine ⟨rfl, rfl, ?_⟩
  by_cases h : s = "password"
  · subst h; rfl
  · have he : (Value.str s).eqString "password" = false := by
      simp [Value.eqString, h]
    simp [scan, scanAdmin, keyTest, getItem, hasKey, firstVal, he, h]

/-- C3 witness: the general clause instantiated at a non-default value. -/
theorem C3_exact_value_match_witness :
    scan (Value.obj [("password", Value.str "hunter2")]) = Except.ok [] := by
  have h := (C3_exact_value_match "hunter2").2.2
  simpa using h

/-- C4 counterexample: a well-formed JSON schema whose `type` is the
unrecognized name `"foo"` is loaded by `load_schema_file` without any error
— schema parsing does not fail on unrecognized type names (the meta-schema
check that rejects it only runs later, inside validation). -/
theorem C4_counterexample :
    load_schema_file ⟨true, Except.error (), Except.ok (Value.obj [("type", Value.str "foo")])⟩
      = ([Event.schExistsCheck, Event.schOpen, Event.schParse],
         Except.ok (Value.obj [("type", Value.str "foo")]))
    ∧ check_schema (Value.obj [("type", Value.str "foo")]) = false := by
  constructor
  · rfl
  · simp [check_schema, checkEntries, checkEntry, typeValueOk, typeNames]

/-- C4 (amended): schema loading fails (as a JSON-decode error) on malformed
JSON, but a schema node with an unrecognized `type` is loaded without error;
it is rejected later, during validation, where the jsonschema schema check
raises and surfaces as a generic unexpected error — a hard error, but not at
parse time. -/
theorem C4_unrecognized_type_rejected_later (fs : FileState) (d : Value) (t : String)
    (hpresent : fs.present = true)
    (hbad : typeNames.contains t = false) :
    (fs.jsonParse = Except.error () →
      (load_schema_file fs).2 = Except.error PyErr.jsonDecodeError)
    ∧ (fs.jsonParse = Except.ok (Value.obj [("type", Value.str t)]) →
      (load_schema_file fs).2 = Except.ok (Value.obj [("type", Value.str t)]))
    ∧ validate_config d (Value.obj [("type", Value.str t)])
        = Except.error PyErr.unexpectedError := by
  have hcs : check_schema (Value.obj [("type", Value.str t)]) = false := by
    simp [check_schema, checkEntries, checkEntry, typeValueOk]
    simpa using hbad
  refine ⟨fun hj => ?_, fun hj => ?_, ?_⟩
  · simp [load_schema_file, hpresent, hj]
  · simp [load_schema_file, hpresent, hj]
  · simp [validate_config, hcs]

/-- C4 witness: the schema `{"type": "bogus"}` loads fine and validation of
any document against it fails as an unexpected error. -/
theorem C4_unrecognized_type_rejected_later_witness :
    (load_schema_file ⟨true, Except.error (), Except.ok (Value.obj [("type", Value.str "bogus")])⟩).2
      = Except.ok (Value.obj [("type", Value.str "bogus")])
    ∧ validate_config (Value.obj []) (Value.obj [("type", Value.str "bogus")])
      = Except.error PyErr.unexpectedError :=
  ⟨(C4_unrecognized_type_rejected_later
      ⟨true, Except.error (), Except.ok (Value.obj [("type", Value.str "bogus")])⟩
      (Value.obj []) "bogus" rfl (by decide)).2.1 rfl,
   (C4_unrecognized_type_rejected_later
      ⟨true, Except.error (), Except.ok (Value.obj [("type", Value.str "bogus")])⟩
      (Value.obj []) "bogus" rfl (by decide)).2.2⟩

/-- C5 counterexample: for an existing document `config.custom` with no type
override, the run's trace shows the file *was* opened before the failure,
and the error class is the generic unexpected error, not the
unsupported-format `ValueError` (which `load_config_file`'s blanket
`except Exception` clause swallowed and re-wrapped). -/
theorem C5_counterexample :
    main ⟨"config.custom", none, none⟩
        ⟨true, Except.ok (Value.obj []), Except.ok (Value.obj [])⟩
        ⟨false, Except.error (), Except.error ()⟩
      = ([Event.cfgExistsCheck, Event.cfgOpen], Except.error PyErr.unexpectedError)
    ∧ Event.cfgOpen ∈ (main ⟨"config.custom", none, none⟩
        ⟨true, Except.ok (Value.obj []), Except.ok (Value.obj [])⟩
        ⟨false, Except.error (), Except.error ()⟩).1
    ∧ (main ⟨"config.custom", none, none⟩
        ⟨true, Except.ok (Value.obj []), Except.ok (Value.obj [])⟩
        ⟨false, Except.error (), Except.error ()⟩).2
      ≠ Except.error PyErr.valueError := by
  refine ⟨rfl, by decide, fun h => ?_⟩
  have h2 : (Except.error PyErr.unexpectedError : Except PyErr Report)
      = Except.error PyErr.valueError := h
  simp at h2

/-- C5 (amended): for every existing document whose extension resolves to
none of `.yaml`/`.yml`/`.json` and no explicit type override, the run fails
before parsing but only *after* opening the file, and the failure surfaces
as a generic unexpected error (the undetermined-type `ValueError` re-wrapped
by the blanket handler), not as a distinct unsupported-format error. -/
theorem C5_fails_after_open (args : Args) (cfg sch : FileState)
    (hft : args.ftype = none)
    (h1 : strEndsWith args.config_file ".yaml" = false)
    (h2 : strEndsWith args.config_file ".yml" = false)
    (h3 : strEndsWith args.config_file ".json" = false)
    (hex : cfg.present = true) :
    main args cfg sch
      = ([Event.cfgExistsCheck, Event.cfgOpen], Except.error PyErr.unexpectedError) := by
  have hl : load_config_file args.config_file args.ftype cfg
      = ([Event.cfgExistsCheck, Event.cfgOpen], Except.error PyErr.unexpectedError) := by
    simp [load_config_file, hft, h1, h2, h3, hex]
  simp [main, hl]

/-- C5 witness: an existing `settings.ini` run with a schema argument fails
right after the open, before any parse/validate/scan stage. -/
theorem C5_fails_after_open_witness :
    main ⟨"settings.ini", some "schema.json", none⟩
        ⟨true, Except.ok (Value.obj []), Except.ok (Value.obj [])⟩
        ⟨true, Except.ok (Value.obj []), Except.ok (Value.obj [])⟩
      = ([Event.cfgExistsCheck, Event.cfgOpen], Except.error PyErr.unexpectedError) :=
  C5_fails_after_open ⟨"settings.ini", some "schema.json", none⟩
    ⟨true, Except.ok (Value.obj []), Except.ok (Value.obj [])⟩
    ⟨true, Except.ok (Value.obj []), Except.ok (Value.obj [])⟩
    rfl (by decide) (by decide) (by decide) rfl

/-- C6 (code bug): the rule engine *can* fail on content.  A successfully
parsed document whose root is `null` (e.g. an empty YAML file) makes
`'password' in config_data` raise `TypeError`, so the whole run aborts as an
unexpected error (exit 1) instead of reporting a scan result — contradicting
the stated (and clearly intended) property that findings are results, never
failures. -/
theorem C6_scan_raises_on_null_document :
    scan Value.null = Except.error ()
    ∧ main ⟨"c.yaml", none, none⟩
        ⟨true, Except.ok Value.null, Except.error ()⟩
        ⟨false, Except.error (), Except.error ()⟩
      = ([Event.cfgExistsCheck, Event.cfgOpen, Event.cfgParse, Event.scanRun],
         Except.error PyErr.unexpectedError) :=
  ⟨rfl, rfl⟩

/-- C7 (confirmed): when no schema path is given, every completed run's
report has `validated = false` with an empty violation list, the explicit
"Skipping validation" status is the first status log line, and the
validation stage never ran. -/
theorem C7_no_schema_unvalidated (args : Args) (cfg sch : FileState) (r : Report)
    (hns : args.schema_file = none)
    (hok : (main args cfg sch).2 = Except.ok r) :
    r.validated = false ∧ r.violations = []
    ∧ r.logs.head? = some LogLine.skippingValidation
    ∧ Event.validateRun ∉ (main args cfg sch).1 := by
  cases hload : (load_config_file args.config_file args.ftype cfg).2 with
  | error e =>
    have hmain : (main args cfg sch).2 = Except.error e := by
      simp [main, hload]
    rw [hmain] at hok
    exact Except.noConfusion hok
  | ok cd =>
    cases hscan : scan cd with
    | error u =>
      have hmain : (main args cfg sch).2 = Except.error PyErr.unexpectedError := by
        simp [main, hns, hload, hscan]
      rw [hmain] at hok
      exact Except.noConfusion hok
    | ok fs =>
      have hmain : main args cfg sch
          = ((load_config_file args.config_file args.ftype cfg).1 ++ [Event.scanRun],
             Except.ok { validated := false, violations := [], findings := fs,
                         logs := LogLine.skippingValidation :: findingLogs fs }) := by
        simp [main, hns, hload, hscan]
      rw [hmain] at hok
      injection hok with hre
      subst hre
      refine ⟨rfl, rfl, rfl, ?_⟩
      rcases load_cfg_trace args.config_file args.ftype cfg with ht | ht | ht <;>
        simp [hmain, ht]

/-- C7 witness: a schema-less run on `{"a": 1}` completes with
`validated = false`, no violations, and the skip status logged first. -/
theorem C7_no_schema_unvalidated_witness :
    ({ validated := false, violations := [], findings := [],
       logs := [LogLine.skippingValidation, LogLine.noDefaultFound] } : Report).validated = false
    ∧ ({ validated := false, violations := [], findings := [],
         logs := [LogLine.skippingValidation, LogLine.noDefaultFound] } : Report).violations = []
    ∧ ({ validated := false, violations := [], findings := [],
         logs := [LogLine.skippingValidation, LogLine.noDefaultFound] } : Report).logs.head?
        = some LogLine.skippingValidation
    ∧ Event.validateRun ∉ (main ⟨"c.yaml", none, none⟩
        ⟨true, Except.ok (Value.obj [("a", Value.num 1)]), Except.error ()⟩
        ⟨false, Except.error (), Except.error ()⟩).1 :=
  C7_no_schema_unvalidated ⟨"c.yaml", none, none⟩
    ⟨true, Except.ok (Value.obj [("a", Value.num 1)]), Except.error ()⟩
    ⟨false, Except.error (), Except.error ()⟩
    { validated := false, violations := [], findings := [],
      logs := [LogLine.skippingValidation, LogLine.noDefaultFound] }
    rfl rfl

/-- C8 (confirmed): when document loading fails, or a given schema fails to
load, the run aborts with a raised error and neither the validation stage
nor the insecure-default scan is ever executed. -/
theorem C8_abort_on_parse_error (args : Args) (cfg sch : FileState)
    (h : exceptFailed (load_config_file args.config_file args.ftype cfg).2 = true
         ∨ (args.schema_file ≠ none ∧ exceptFailed (load_schema_file sch).2 = true)) :
    Event.validateRun ∉ (main args cfg sch).1
    ∧ Event.scanRun ∉ (main args cfg sch).1
    ∧ exceptFailed (main args cfg sch).2 = true := by
  cases hload : (load_config_file args.config_file args.ftype cfg).2 with
  | error e =>
    have hmain : main args cfg sch
        = ((load_config_file args.config_file args.ftype cfg).1, Except.error e) := by
      simp [main, hload]
    rcases load_cfg_trace args.config_file args.ftype cfg with ht | ht | ht <;>
      simp [hmain, ht, exceptFailed]
  | ok cd =>
    rcases h with hcfg | ⟨hsome, hserr⟩
    · rw [hload] at hcfg
      exact Bool.noConfusion hcfg
    · cases hsf : args.schema_file with
      | none => exact absurd hsf hsome
      | some s =>
        cases hsch : (load_schema_file sch).2 with
        | ok sv =>
          rw [hsch] at hserr
          exact Bool.noConfusion hserr
        | error e2 =>
          have hmain : main args cfg sch
              = ((load_config_file args.config_file args.ftype cfg).1
                  ++ (load_schema_file sch).1, Except.error e2) := by
            simp [main, hload, hsf, hsch]
          rcases load_cfg_trace args.config_file args.ftype cfg with h1 | h1 | h1 <;>
            rcases load_sch_trace sch with h2 | h2 <;>
              simp [hmain, h1, h2, exceptFailed]

/-- C8 witness: a run whose document file is missing aborts with neither
validation nor scan executed. -/
theorem C8_abort_on_parse_error_witness :
    Event.validateRun ∉ (main ⟨"c.yaml", some "s.json", none⟩
        ⟨false, Except.error (), Except.error ()⟩
        ⟨true, Except.error (), Except.ok (Value.obj [])⟩).1
    ∧ Event.scanRun ∉ (main ⟨"c.yaml", some "s.json", none⟩
        ⟨false, Except.error (), Except.error ()⟩
        ⟨true, Except.error (), Except.ok (Value.obj [])⟩).1
    ∧ exceptFailed (main ⟨"c.yaml", some "s.json", none⟩
        ⟨false, Except.error (), Except.error ()⟩
        ⟨true, Except.error (), Except.ok (Value.obj [])⟩).2 = true :=
  C8_abort_on_parse_error ⟨"c.yaml", some "s.json", none⟩
    ⟨false, Except.error (), Except.error ()⟩
    ⟨true, Except.error (), Except.ok (Value.obj [])⟩
    (Or.inl (by decide))

/-- C9 (confirmed): the existence check comes first in both loaders — for a
missing file the outcome is `FileNotFound` with nothing else attempted (no
open, no format resolution, no parse), for every path, including paths with
unresolvable extensions. -/
theorem C9_file_not_found_first (p : String) (ft : Option String) (cfg sch : FileState)
    (h1 : cfg.present = false) (h2 : sch.present = false) :
    load_config_file p ft cfg = ([Event.cfgExistsCheck], Except.error PyErr.fileNotFound)
    ∧ load_schema_file sch = ([Event.schExistsCheck], Except.error PyErr.fileNotFound) := by
  constructor
  · simp [load_config_file, h1]
  · simp [load_schema_file, h2]

/-- C9 witness: a missing `missing.custom` (unresolvable extension) yields
`FileNotFound`, not the unsupported-format error. -/
theorem C9_file_not_found_first_witness :
    load_config_file "missing.custom" none ⟨false, Except.error (), Except.error ()⟩
      = ([Event.cfgExistsCheck], Except.error PyErr.fileNotFound)
    ∧ load_schema_file ⟨false, Except.error (), Except.error ()⟩
      = ([Event.schExistsCheck], Except.error PyErr.fileNotFound) :=
  C9_file_not_found_first "missing.custom" none
    ⟨false, Except.error (), Except.error ()⟩ ⟨false, Except.error (), Except.error ()⟩
    rfl rfl

/-- C10 (confirmed): the scan inspects only the top-level keys — whenever
the root object binds neither `password` to `"password"` nor
`admin_password` to `"admin"` directly, no finding is reported, whatever the
nested values contain. -/
theorem C10_top_level_scan (kvs : List (String × Value))
    (hp : topMatches kvs "password" "password" = false)
    (ha : topMatches kvs "admin_password" "admin" = false) :
    scan (Value.obj kvs) = Except.ok [] := by
  have hadmin : scanAdmin (Value.obj kvs) = Except.ok [] := by
    cases hfv : firstVal kvs "admin_password" with
    | none =>
      have hk : hasKey kvs "admin_password" = false := by
        rw [hasKey_eq_isSome, hfv]; rfl
      simp [scanAdmin, keyTest, hk]
    | some v =>
      have hk : hasKey kvs "admin_password" = true := by
        rw [hasKey_eq_isSome, hfv]; rfl
      have hv : v.eqString "admin" = false := by
        simp only [topMatches, hfv] at ha; exact ha
      simp [scanAdmin, keyTest, hk, getItem, hfv, hv]
  cases hfv : firstVal kvs "password" with
  | none =>
    have hk : hasKey kvs "password" = false := by
      rw [hasKey_eq_isSome, hfv]; rfl
    simp [scan, keyTest, hk, hadmin]
  | some v =>
    have hk : hasKey kvs "password" = true := by
      rw [hasKey_eq_isSome, hfv]; rfl
    have hv : v.eqString "password" = false := by
      simp only [topMatches, hfv] at hp; exact hp
    simp [scan, keyTest, hk, getItem, hfv, hv, hadmin]

/-- C10 witness: a document whose only top-level key holds a nested object
with both insecure defaults yields zero findings. -/
theorem C10_top_level_scan_witness :
    scan (Value.obj [("outer", Value.obj [("password", Value.str "password"),
                                          ("admin_password", Value.str "admin")])])
      = Except.ok [] :=
  C10_top_level_scan
    [("outer", Value.obj [("password", Value.str "password"),
                          ("admin_password", Value.str "admin")])]
    (by decide) (by decide)

end Reporter
